import Mathlib

/-!
Verification of the uncaught-exception fatal-error coordinator
(`makeErrorHandler` in `packages/integrations/src/transaction.ts`,
the `OnUncaughtException` integration).

The handler is a closure over four mutable variables
(`caughtFirstError`, `caughtSecondError`, `calledFatalError`, `firstError`)
that is invoked once per uncaught error.  We embed one invocation as a pure
function from the closure state plus the per-invocation environment
(registered process listeners, whether the globally active client is the
client the handler was bound to) to the new closure state together with a
list of observable effects (capture calls, fatal-handler calls, timer
scheduling).  The `setTimeout` callback is embedded as a separate function
`fireTimeout` acting on the closure state, and a small trace semantics
(`step` / `run`) sequences handler invocations and timer firings, letting a
timer fire only if it was actually scheduled.
-/

set_option autoImplicit false

namespace OnUncaughtException

/-- A process-level `uncaughtException` listener as the handler sees it:
its function `name`, an optional `tag` string (`TaggedListener`), and the
`_errorHandler` marker property set by this integration. -/
structure TaggedListener where
  name : String
  tag : Option String
  _errorHandler : Bool
deriving DecidableEq, Repr

/-- The configuration fixed when `makeErrorHandler(client, options)` runs:
the `exitEvenIfOtherHandlersAreRegistered` option, whether
`options.onFatalError` is provided, whether `clientOptions.onFatalError`
(from `client.getOptions()`) is provided, and the `DEBUG_BUILD` flag. -/
structure Config where
  exitEvenIfOtherHandlersAreRegistered : Bool
  optionsOnFatalError : Bool
  clientOnFatalError : Bool
  debugBuild : Bool
deriving DecidableEq, Repr

/-- Which concrete function ends up bound to the local `onFatalError`:
`options.onFatalError`, `clientOptions.onFatalError`, or the default
`logAndExitProcess`. -/
inductive FatalHandlerChoice where
  | optionsHandler
  | clientHandler
  | logAndExitProcess
deriving DecidableEq, Repr

/-- Per-invocation environment: the listeners currently registered on
`process` for `uncaughtException`, and whether `getClient() === client`
holds at this invocation. -/
structure CallEnv where
  listeners : List TaggedListener
  activeClientIsBoundClient : Bool
deriving DecidableEq, Repr

/-- The closure state of one `makeErrorHandler` instance.  Errors are
identified by natural numbers; `firstError` is `none` while the `let
firstError: Error` variable is still unassigned. -/
structure HandlerState where
  caughtFirstError : Bool
  caughtSecondError : Bool
  calledFatalError : Bool
  firstError : Option Nat
deriving DecidableEq, Repr

/-- The closure state right after `makeErrorHandler` returns. -/
def initialState : HandlerState :=
  { caughtFirstError := false
    caughtSecondError := false
    calledFatalError := false
    firstError := none }

/-- Observable effects of one handler invocation or timer firing:
`captureException error`, a call to a fatal handler with its first and
optional second argument, a `logger.warn`, or scheduling of a
`setTimeout` callback (with its delay and the second error it closes
over). -/
inductive Effect where
  | captureException (error : Nat)
  | callFatal (handler : FatalHandlerChoice) (firstError : Option Nat) (secondError : Option Nat)
  | warnLog
  | scheduleTimeout (delayMs : Nat) (handler : FatalHandlerChoice) (secondError : Nat)
deriving DecidableEq, Repr

/-- The `timeout` constant of `makeErrorHandler`. -/
def timeout : Nat := 2000

/-- The body of the `reduce` in `makeErrorHandler`: a listener is ignored
when its name is `domainUncaughtExceptionClear`, when its tag is set and
equals `sentry_tracingErrorCallback`, or when its `_errorHandler` marker
is set. -/
def listenerIsIgnored (listener : TaggedListener) : Bool :=
  listener.name == "domainUncaughtExceptionClear" ||
    (match listener.tag with
      | some t => t == "sentry_tracingErrorCallback"
      | none => false) ||
    listener._errorHandler

/-- `userProvidedListenersCount`: the `reduce` over the registered
listeners, adding one for every listener that is not ignored. -/
def userProvidedListenersCount (listeners : List TaggedListener) : Nat :=
  listeners.foldl (fun acc listener =>
    if listenerIsIgnored listener then acc else acc + 1) 0

/-- `processWouldExit = userProvidedListenersCount === 0`. -/
def processWouldExit (listeners : List TaggedListener) : Bool :=
  userProvidedListenersCount listeners == 0

/-- `shouldApplyFatalHandlingLogic = options.exitEvenIfOtherHandlersAreRegistered
|| processWouldExit`. -/
def shouldApplyFatalHandlingLogic (cfg : Config) (listeners : List TaggedListener) : Bool :=
  cfg.exitEvenIfOtherHandlersAreRegistered || processWouldExit listeners

/-- Resolution of the local `onFatalError` at the top of each invocation:
`options.onFatalError` if set, else `clientOptions.onFatalError` if set,
else `logAndExitProcess`. -/
def resolveOnFatalError (cfg : Config) : FatalHandlerChoice :=
  if cfg.optionsOnFatalError then .optionsHandler
  else if cfg.clientOnFatalError then .clientHandler
  else .logAndExitProcess

/-- One invocation of the handler returned by `makeErrorHandler` on
`error`, mirroring the source line by line.  Returns the new closure
state and the effects in the order the source performs them. -/
def handleError (cfg : Config) (env : CallEnv) (s : HandlerState) (error : Nat) :
    HandlerState × List Effect :=
  let onFatalError := resolveOnFatalError cfg
  let shouldApply := shouldApplyFatalHandlingLogic cfg env.listeners
  if !s.caughtFirstError then
    let s1 : HandlerState :=
      { s with firstError := some error, caughtFirstError := true }
    let captureEffects : List Effect :=
      if env.activeClientIsBoundClient then [Effect.captureException error] else []
    if !s1.calledFatalError && shouldApply then
      ({ s1 with calledFatalError := true },
        captureEffects ++ [Effect.callFatal onFatalError (some error) none])
    else
      (s1, captureEffects)
  else
    if shouldApply then
      if s.calledFatalError then
        (s, (if cfg.debugBuild then [Effect.warnLog] else []) ++
          [Effect.callFatal .logAndExitProcess (some error) none])
      else if !s.caughtSecondError then
        ({ s with caughtSecondError := true },
          [Effect.scheduleTimeout timeout onFatalError error])
      else
        (s, [])
    else
      (s, [])

/-- The `setTimeout` callback scheduled for a second error: it closes over
the `onFatalError` resolved in the scheduling invocation and the second
error, and reads `calledFatalError` and `firstError` when it fires. -/
def fireTimeout (s : HandlerState) (onFatalError : FatalHandlerChoice) (secondError : Nat) :
    HandlerState × List Effect :=
  if !s.calledFatalError then
    ({ s with calledFatalError := true },
      [Effect.callFatal onFatalError s.firstError (some secondError)])
  else
    (s, [])

/-- The timers scheduled by a list of effects: handler choice and second
error captured by each `scheduleTimeout`. -/
def scheduledOf (effects : List Effect) : List (FatalHandlerChoice × Nat) :=
  effects.filterMap fun eff =>
    match eff with
    | .scheduleTimeout _ h sec => some (h, sec)
    | _ => none

/-- Whole-system state for trace reasoning: the closure state, the
scheduled-but-unfired timer callbacks, and the accumulated effect log. -/
structure SysState where
  hs : HandlerState
  pendingTimers : List (FatalHandlerChoice × Nat)
  log : List Effect
deriving DecidableEq, Repr

/-- The system state right after registration, before any error. -/
def initialSys : SysState :=
  { hs := initialState, pendingTimers := [], log := [] }

/-- A trace event: an uncaught error delivered to the handler (with the
listener/client environment at that moment), or the firing of the
pending timer at a given index. -/
inductive Event where
  | uncaught (env : CallEnv) (error : Nat)
  | timeoutFires (idx : Nat)
deriving DecidableEq, Repr

/-- One trace step: deliver an error to the handler, or fire a pending
timer (a `timeoutFires` index with no pending timer is a no-op). -/
def step (cfg : Config) (sys : SysState) (ev : Event) : SysState :=
  match ev with
  | .uncaught env e =>
      let r := handleError cfg env sys.hs e
      { hs := r.1
        pendingTimers := sys.pendingTimers ++ scheduledOf r.2
        log := sys.log ++ r.2 }
  | .timeoutFires i =>
      match sys.pendingTimers[i]? with
      | some (h, sec) =>
          let r := fireTimeout sys.hs h sec
          { hs := r.1
            pendingTimers := sys.pendingTimers.eraseIdx i
            log := sys.log ++ r.2 }
      | none => sys

/-- Run a whole trace of events from a system state. -/
def run (cfg : Config) (sys : SysState) (evs : List Event) : SysState :=
  evs.foldl (step cfg) sys

/-- The listener count as the spec sentence behind claim C6 words it:
"count of other, non-subsystem error listeners", excluding only listeners
tagged as this coordinator itself and listeners tagged
`sentry_tracingErrorCallback`.
Modelled from the spec: the spec lists exactly these two exclusions. -/
def claimedListenersCount (listeners : List TaggedListener) : Nat :=
  listeners.foldl (fun acc listener =>
    if listener._errorHandler ||
        (match listener.tag with
          | some t => t == "sentry_tracingErrorCallback"
          | none => false) then acc
    else acc + 1) 0


/-- Fixture: the default configuration (exit even if other handlers are
registered, no onFatalError overrides, non-debug build). -/
def defaultConfig : Config :=
  { exitEvenIfOtherHandlersAreRegistered := true
    optionsOnFatalError := false
    clientOnFatalError := false
    debugBuild := false }

/-- Fixture: default configuration except a client-level onFatalError is
provided. -/
def clientFatalConfig : Config :=
  { exitEvenIfOtherHandlersAreRegistered := true
    optionsOnFatalError := false
    clientOnFatalError := true
    debugBuild := false }

/-- Fixture: default configuration except an integration-level
onFatalError is provided. -/
def optionsFatalConfig : Config :=
  { exitEvenIfOtherHandlersAreRegistered := true
    optionsOnFatalError := true
    clientOnFatalError := false
    debugBuild := false }

/-- Fixture: integration-level onFatalError provided, debug build. -/
def debugOptionsConfig : Config :=
  { exitEvenIfOtherHandlersAreRegistered := true
    optionsOnFatalError := true
    clientOnFatalError := false
    debugBuild := true }

/-- Fixture: configuration that defers to other registered handlers. -/
def deferConfig : Config :=
  { exitEvenIfOtherHandlersAreRegistered := false
    optionsOnFatalError := false
    clientOnFatalError := false
    debugBuild := false }

/-- Fixture: no listeners registered, active client is the bound client. -/
def boundEnv : CallEnv :=
  { listeners := [], activeClientIsBoundClient := true }

/-- Fixture: no listeners registered, active client differs from the bound
client. -/
def staleEnv : CallEnv :=
  { listeners := [], activeClientIsBoundClient := false }

/-- Fixture: one user-provided listener registered, bound client active. -/
def userListenerEnv : CallEnv :=
  { listeners := [{ name := "myHandler", tag := none, _errorHandler := false }]
    activeClientIsBoundClient := true }

/-- Fixture: closure state after a first error was seen and termination
already fired. -/
def terminatedState : HandlerState :=
  { caughtFirstError := true, caughtSecondError := false
    calledFatalError := true, firstError := some 1 }

/-- Fixture: closure state after a first error was seen, termination not
yet fired. -/
def awaitingState : HandlerState :=
  { caughtFirstError := true, caughtSecondError := false
    calledFatalError := false, firstError := some 1 }

/-- Fixture: closure state with an open grace window. -/
def graceOpenState : HandlerState :=
  { caughtFirstError := true, caughtSecondError := true
    calledFatalError := false, firstError := some 1 }

/-- Fixture: only node's own domain listener registered, bound client
active. -/
def domainOnlyEnv : CallEnv :=
  { listeners := [{ name := "domainUncaughtExceptionClear", tag := none, _errorHandler := false }]
    activeClientIsBoundClient := true }

example :
    handleError defaultConfig boundEnv initialState 7 =
    ({ caughtFirstError := true, caughtSecondError := false
       calledFatalError := true, firstError := some 7 },
      [Effect.captureException 7,
       Effect.callFatal .logAndExitProcess (some 7) none]) := by
  decide

theorem handleError_calledFatalError_mono (cfg : Config) (env : CallEnv)
    (s : HandlerState) (e : Nat) (h : s.calledFatalError = true) :
    (handleError cfg env s e).1.calledFatalError = true := by
  simp only [handleError, h]
  split
  · simp_all
  · split <;> simp_all

theorem fireTimeout_calledFatalError_mono (s : HandlerState)
    (hc : FatalHandlerChoice) (sec : Nat) (h : s.calledFatalError = true) :
    (fireTimeout s hc sec).1.calledFatalError = true := by
  simp [fireTimeout, h]

theorem step_calledFatalError_mono (cfg : Config) (sys : SysState) (ev : Event)
    (h : sys.hs.calledFatalError = true) :
    (step cfg sys ev).hs.calledFatalError = true := by
  cases ev with
  | uncaught env e =>
      simpa only [step] using handleError_calledFatalError_mono cfg env sys.hs e h
  | timeoutFires i =>
      simp only [step]
      cases hx : sys.pendingTimers[i]? with
      | none => simpa using h
      | some p =>
          cases p with
          | mk hc sec => simpa using fireTimeout_calledFatalError_mono sys.hs hc sec h

/-- C1: over any trace of handler invocations and timer firings, the
`calledFatalError` flag is never reset: once true it stays true for the
rest of the handler's lifetime, so it transitions false → true at most
once and every guarded Terminator invocation (which sets it together
with the call) leaves it permanently true. -/
theorem calledFatalError_never_resets (cfg : Config) (sys : SysState)
    (evs : List Event) (h : sys.hs.calledFatalError = true) :
    (run cfg sys evs).hs.calledFatalError = true := by
  induction evs generalizing sys with
  | nil => simpa [run] using h
  | cons ev evs ih =>
      have hstep := step_calledFatalError_mono cfg sys ev h
      simpa only [run, List.foldl_cons] using ih (step cfg sys ev) hstep

theorem calledFatalError_never_resets_witness :
    (run defaultConfig
      { hs := terminatedState, pendingTimers := [], log := [] }
      [Event.uncaught boundEnv 2, Event.timeoutFires 0]).hs.calledFatalError = true :=
  calledFatalError_never_resets defaultConfig
    { hs := terminatedState, pendingTimers := [], log := [] }
    [Event.uncaught boundEnv 2, Event.timeoutFires 0] rfl

/-- C2: a second error arriving while fatal logic applies and termination
has not fired schedules exactly one 2000 ms grace timer capturing that
error; when the timer fires, the Terminator is called with
`(firstError, secondError)` if and only if termination has still not been
called, and the callback is a no-op otherwise. -/
theorem secondError_grace_timer (cfg : Config) (env : CallEnv)
    (s : HandlerState) (e2 : Nat)
    (h1 : s.caughtFirstError = true) (h2 : s.caughtSecondError = false)
    (h3 : s.calledFatalError = false)
    (h4 : shouldApplyFatalHandlingLogic cfg env.listeners = true) :
    handleError cfg env s e2 =
      ({ s with caughtSecondError := true },
        [Effect.scheduleTimeout 2000 (resolveOnFatalError cfg) e2]) ∧
    (∀ s2 : HandlerState, s2.calledFatalError = false →
      fireTimeout s2 (resolveOnFatalError cfg) e2 =
        ({ s2 with calledFatalError := true },
          [Effect.callFatal (resolveOnFatalError cfg) s2.firstError (some e2)])) ∧
    (∀ s2 : HandlerState, s2.calledFatalError = true →
      fireTimeout s2 (resolveOnFatalError cfg) e2 = (s2, [])) := by
  refine ⟨?_, ?_, ?_⟩
  · simp [handleError, h1, h2, h3, h4, timeout]
  · intro s2 hs2
    simp [fireTimeout, hs2]
  · intro s2 hs2
    simp [fireTimeout, hs2]

theorem secondError_grace_timer_witness :
    handleError defaultConfig boundEnv awaitingState 2 =
      ({ awaitingState with caughtSecondError := true },
        [Effect.scheduleTimeout 2000 (resolveOnFatalError defaultConfig) 2]) :=
  (secondError_grace_timer defaultConfig boundEnv awaitingState 2
    rfl rfl rfl (by decide)).1

/-- C3: on the first error with default configuration (exit even if other
handlers are registered), no other user listeners and the bound client
active, the handler stores the error as `firstError`, emits the capture
call, and in the same invocation sets `calledFatalError` and calls the
Terminator with the single error — with the capture not awaited, the
fatal call following it in the same effect list. -/
theorem firstError_capture_then_terminate (cfg : Config) (env : CallEnv) (e : Nat)
    (hexit : cfg.exitEvenIfOtherHandlersAreRegistered = true)
    (hcount : userProvidedListenersCount env.listeners = 0)
    (hclient : env.activeClientIsBoundClient = true) :
    handleError cfg env initialState e =
      ({ caughtFirstError := true, caughtSecondError := false
         calledFatalError := true, firstError := some e },
        [Effect.captureException e,
         Effect.callFatal (resolveOnFatalError cfg) (some e) none]) := by
  simp [handleError, initialState, shouldApplyFatalHandlingLogic, processWouldExit,
    hexit, hcount, hclient]

theorem firstError_capture_then_terminate_witness :
    handleError defaultConfig boundEnv initialState 5 =
      ({ caughtFirstError := true, caughtSecondError := false
         calledFatalError := true, firstError := some 5 },
        [Effect.captureException 5,
         Effect.callFatal (resolveOnFatalError defaultConfig) (some 5) none]) :=
  firstError_capture_then_terminate defaultConfig boundEnv 5 rfl rfl rfl

/-- C4 counterexample: with `options.onFatalError` configured, the resolved
Terminator is the options handler, yet an error arriving after
termination makes the handler call `logAndExitProcess` directly — the
configured Terminator is not invoked again. -/
theorem afterShutdown_counterexample :
    resolveOnFatalError optionsFatalConfig = FatalHandlerChoice.optionsHandler ∧
    (handleError optionsFatalConfig boundEnv terminatedState 2).2 =
      [Effect.callFatal FatalHandlerChoice.logAndExitProcess (some 2) none] ∧
    Effect.callFatal FatalHandlerChoice.optionsHandler (some 2) none ∉
      (handleError optionsFatalConfig boundEnv terminatedState 2).2 := by
  decide

/-- C4 (amended): for every error arriving after termination has already
been called while fatal logic applies, the handler leaves its state
unchanged and immediately calls the default terminator
`logAndExitProcess` with this new error alone (bypassing any configured
`onFatalError`), after at most a debug-build warning, without waiting or
deduplicating further. -/
theorem afterShutdown_forces_logAndExit (cfg : Config) (env : CallEnv)
    (s : HandlerState) (e : Nat)
    (h1 : s.caughtFirstError = true) (h2 : s.calledFatalError = true)
    (h3 : shouldApplyFatalHandlingLogic cfg env.listeners = true) :
    handleError cfg env s e =
      (s, (if cfg.debugBuild then [Effect.warnLog] else []) ++
        [Effect.callFatal FatalHandlerChoice.logAndExitProcess (some e) none]) := by
  simp [handleError, h1, h2, h3]

theorem afterShutdown_forces_logAndExit_witness :
    handleError debugOptionsConfig boundEnv terminatedState 9 =
      (terminatedState,
        (if debugOptionsConfig.debugBuild then [Effect.warnLog] else []) ++
          [Effect.callFatal FatalHandlerChoice.logAndExitProcess (some 9) none]) :=
  afterShutdown_forces_logAndExit debugOptionsConfig boundEnv terminatedState 9
    rfl rfl (by decide)

/-- C7: a third or later error arriving while the grace window is open
(`caughtSecondError` set, `calledFatalError` clear) is ignored: the state
comes back unchanged — `caughtFirstError`, `caughtSecondError`,
`calledFatalError` and `firstError` keep their values — and no effect,
in particular no additional timer, is produced. -/
theorem thirdError_ignored (cfg : Config) (env : CallEnv)
    (s : HandlerState) (e : Nat)
    (h1 : s.caughtFirstError = true) (h2 : s.caughtSecondError = true)
    (h3 : s.calledFatalError = false) :
    handleError cfg env s e = (s, []) := by
  simp [handleError, h1, h2, h3]

theorem thirdError_ignored_witness :
    handleError defaultConfig boundEnv graceOpenState 3 = (graceOpenState, []) :=
  thirdError_ignored defaultConfig boundEnv graceOpenState 3 rfl rfl rfl

/-- C8: on the first observed error, the capture call is emitted if and
only if the currently active client is the bound client; with a stale
client the error is still stored as `firstError`, `caughtFirstError` is
set, the termination decision is still taken (`calledFatalError` becomes
exactly `shouldApplyFatalHandlingLogic`), and no capture call of any
error is emitted. -/
theorem capture_iff_activeClient (cfg : Config) (env : CallEnv)
    (s : HandlerState) (e : Nat)
    (h1 : s.caughtFirstError = false) (h2 : s.calledFatalError = false) :
    ((Effect.captureException e ∈ (handleError cfg env s e).2) ↔
      env.activeClientIsBoundClient = true) ∧
    (handleError cfg env s e).1.firstError = some e ∧
    (handleError cfg env s e).1.caughtFirstError = true ∧
    (handleError cfg env s e).1.calledFatalError =
      shouldApplyFatalHandlingLogic cfg env.listeners ∧
    (env.activeClientIsBoundClient = false →
      ∀ e2, Effect.captureException e2 ∉ (handleError cfg env s e).2) := by
  cases hb : env.activeClientIsBoundClient <;>
    cases hs : shouldApplyFatalHandlingLogic cfg env.listeners <;>
      simp [handleError, h1, h2, hb, hs]

theorem capture_iff_activeClient_witness :
    ((Effect.captureException 4 ∈ (handleError defaultConfig staleEnv initialState 4).2) ↔
      staleEnv.activeClientIsBoundClient = true) ∧
    (handleError defaultConfig staleEnv initialState 4).1.firstError = some 4 ∧
    (handleError defaultConfig staleEnv initialState 4).1.caughtFirstError = true ∧
    (handleError defaultConfig staleEnv initialState 4).1.calledFatalError =
      shouldApplyFatalHandlingLogic defaultConfig staleEnv.listeners ∧
    (staleEnv.activeClientIsBoundClient = false →
      ∀ e2, Effect.captureException e2 ∉ (handleError defaultConfig staleEnv initialState 4).2) :=
  capture_iff_activeClient defaultConfig staleEnv initialState 4 rfl rfl

/-- C10: when fatal logic applies on the first error, the Terminator
actually invoked is the one resolved per invocation: `options.onFatalError`
when provided, else the client options' `onFatalError` when provided,
else the default `logAndExitProcess` — so a client-level `onFatalError`
takes effect exactly when no integration-level override is supplied. -/
theorem onFatalError_resolution (cfg : Config) (env : CallEnv) (e : Nat)
    (happly : shouldApplyFatalHandlingLogic cfg env.listeners = true) :
    (Effect.callFatal (resolveOnFatalError cfg) (some e) none ∈
      (handleError cfg env initialState e).2) ∧
    (cfg.optionsOnFatalError = true →
      resolveOnFatalError cfg = FatalHandlerChoice.optionsHandler) ∧
    (cfg.optionsOnFatalError = false → cfg.clientOnFatalError = true →
      resolveOnFatalError cfg = FatalHandlerChoice.clientHandler) ∧
    (cfg.optionsOnFatalError = false → cfg.clientOnFatalError = false →
      resolveOnFatalError cfg = FatalHandlerChoice.logAndExitProcess) := by
  refine ⟨?_, ?_, ?_, ?_⟩
  · cases hb : env.activeClientIsBoundClient <;>
      simp [handleError, initialState, happly, hb]
  · intro h
    simp [resolveOnFatalError, h]
  · intro h h2
    simp [resolveOnFatalError, h, h2]
  · intro h h2
    simp [resolveOnFatalError, h, h2]

theorem onFatalError_resolution_witness :
    (Effect.callFatal (resolveOnFatalError clientFatalConfig) (some 6) none ∈
      (handleError clientFatalConfig boundEnv initialState 6).2) ∧
    (clientFatalConfig.optionsOnFatalError = true →
      resolveOnFatalError clientFatalConfig = FatalHandlerChoice.optionsHandler) ∧
    (clientFatalConfig.optionsOnFatalError = false →
      clientFatalConfig.clientOnFatalError = true →
      resolveOnFatalError clientFatalConfig = FatalHandlerChoice.clientHandler) ∧
    (clientFatalConfig.optionsOnFatalError = false →
      clientFatalConfig.clientOnFatalError = false →
      resolveOnFatalError clientFatalConfig = FatalHandlerChoice.logAndExitProcess) :=
  onFatalError_resolution clientFatalConfig boundEnv 6 (by decide)


theorem handleError_of_not_apply (cfg : Config) (env : CallEnv)
    (s : HandlerState) (e : Nat)
    (h : shouldApplyFatalHandlingLogic cfg env.listeners = false) :
    (∀ hc fe sec, Effect.callFatal hc fe sec ∉ (handleError cfg env s e).2) ∧
    scheduledOf (handleError cfg env s e).2 = [] := by
  cases hcf : s.caughtFirstError <;> cases hbc : env.activeClientIsBoundClient <;>
    simp [handleError, h, hcf, hbc, scheduledOf]

theorem run_no_callFatal_aux (cfg : Config) (evs : List Event)
    (hexit : cfg.exitEvenIfOtherHandlersAreRegistered = false) :
    ∀ sys : SysState,
      (∀ env e, Event.uncaught env e ∈ evs →
        userProvidedListenersCount env.listeners ≠ 0) →
      (∀ hc fe sec, Effect.callFatal hc fe sec ∉ sys.log) →
      sys.pendingTimers = [] →
      (∀ hc fe sec, Effect.callFatal hc fe sec ∉ (run cfg sys evs).log) ∧
        (run cfg sys evs).pendingTimers = [] := by
  induction evs with
  | nil =>
      intro sys _ hlog hpend
      exact ⟨hlog, hpend⟩
  | cons ev evs ih =>
      intro sys hlist hlog hpend
      have htail : ∀ env e, Event.uncaught env e ∈ evs →
          userProvidedListenersCount env.listeners ≠ 0 :=
        fun env e hm => hlist env e (List.mem_cons_of_mem _ hm)
      have hrun : run cfg sys (ev :: evs) = run cfg (step cfg sys ev) evs := rfl
      rw [hrun]
      cases ev with
      | uncaught env e =>
          have hcount := hlist env e (List.mem_cons_self _ _)
          have happly : shouldApplyFatalHandlingLogic cfg env.listeners = false := by
            simp [shouldApplyFatalHandlingLogic, processWouldExit, hexit, hcount]
          obtain ⟨hnof, hsch⟩ := handleError_of_not_apply cfg env sys.hs e happly
          refine ih _ htail ?_ ?_
          · intro hc fe sec hmem
            simp only [step, List.mem_append] at hmem
            rcases hmem with hmem | hmem
            · exact hlog hc fe sec hmem
            · exact hnof hc fe sec hmem
          · simp [step, hpend, hsch]
      | timeoutFires i =>
          have hnone : sys.pendingTimers[i]? = none := by simp [hpend]
          have hstep : step cfg sys (Event.timeoutFires i) = sys := by
            simp [step, hnone]
          rw [hstep]
          exact ih _ htail hlog hpend

/-- C5: with `exitEvenIfOtherHandlersAreRegistered = false` and at least
one non-excluded user-provided listener present at every invocation, no
fatal handler is ever called over any trace of errors and timer firings,
for any error and any number of errors. -/
theorem noTermination_with_other_listeners (cfg : Config) (evs : List Event)
    (hexit : cfg.exitEvenIfOtherHandlersAreRegistered = false)
    (hlist : ∀ env e, Event.uncaught env e ∈ evs →
      userProvidedListenersCount env.listeners ≠ 0)
    (hc : FatalHandlerChoice) (fe : Option Nat) (sec : Option Nat) :
    Effect.callFatal hc fe sec ∉ (run cfg initialSys evs).log :=
  (run_no_callFatal_aux cfg evs hexit initialSys hlist
    (by simp [initialSys]) rfl).1 hc fe sec

theorem noTermination_with_other_listeners_witness :
    Effect.callFatal FatalHandlerChoice.logAndExitProcess (some 1) none ∉
      (run deferConfig initialSys
        [Event.uncaught userListenerEnv 1, Event.uncaught userListenerEnv 2,
         Event.timeoutFires 0]).log :=
  noTermination_with_other_listeners deferConfig
    [Event.uncaught userListenerEnv 1, Event.uncaught userListenerEnv 2,
     Event.timeoutFires 0]
    rfl
    (by
      intro env e hm
      simp only [List.mem_cons, List.mem_singleton] at hm
      rcases hm with hm | hm | hm | hm
      · cases hm
        decide
      · cases hm
        decide
      · simp at hm
      · simp at hm)
    FatalHandlerChoice.logAndExitProcess (some 1) none

theorem listenerIsIgnored_eq (l : TaggedListener) :
    listenerIsIgnored l =
      (l.name == "domainUncaughtExceptionClear" ||
        l.tag == some "sentry_tracingErrorCallback" || l._errorHandler) := by
  cases l with
  | mk name tag flag => cases tag <;> rfl

theorem foldl_count_eq_filter_length (p : TaggedListener → Bool) :
    ∀ (ls : List TaggedListener) (n : Nat),
      ls.foldl (fun acc l => if p l then acc else acc + 1) n =
        n + (ls.filter (fun l => !(p l))).length := by
  intro ls
  induction ls with
  | nil =>
      intro n
      simp
  | cons l ls ih =>
      intro n
      cases hp : p l <;> simp [hp, ih]
      omega

theorem userProvidedListenersCount_eq (ls : List TaggedListener) :
    userProvidedListenersCount ls =
      (ls.filter (fun l => !(listenerIsIgnored l))).length := by
  have h := foldl_count_eq_filter_length listenerIsIgnored ls 0
  simpa [userProvidedListenersCount] using h

/-- C6 counterexample: with only node's own `domainUncaughtExceptionClear`
listener registered and `exitEvenIfOtherHandlersAreRegistered = false`,
the claim's count (excluding only the coordinator's and the tracing
companion's listeners) is 1, so the claimed formula yields false, yet the
code applies fatal handling logic and terminates on the first error. -/
theorem shouldApply_formula_counterexample :
    claimedListenersCount domainOnlyEnv.listeners = 1 ∧
    (deferConfig.exitEvenIfOtherHandlersAreRegistered ||
      (claimedListenersCount domainOnlyEnv.listeners == 0)) = false ∧
    shouldApplyFatalHandlingLogic deferConfig domainOnlyEnv.listeners = true ∧
    (handleError deferConfig domainOnlyEnv initialState 1).1.calledFatalError = true := by
  decide

/-- C6 (amended): on every invocation the fatal-handling decision equals
`exitEvenIfOtherHandlersAreRegistered OR (count == 0)`, where the count
excludes listeners tagged as the coordinator itself (`_errorHandler`),
listeners tagged `sentry_tracingErrorCallback`, and listeners whose
function name is `domainUncaughtExceptionClear`: on a first error the
resulting `calledFatalError` is exactly that formula, and the count is
the number of listeners passing none of the three exclusions. -/
theorem shouldApply_formula (cfg : Config) (env : CallEnv) (e : Nat) :
    ((handleError cfg env initialState e).1.calledFatalError =
      (cfg.exitEvenIfOtherHandlersAreRegistered ||
        (userProvidedListenersCount env.listeners == 0))) ∧
    (∀ ls : List TaggedListener,
      userProvidedListenersCount ls =
        (ls.filter (fun l => !(l.name == "domainUncaughtExceptionClear" ||
          l.tag == some "sentry_tracingErrorCallback" || l._errorHandler))).length) := by
  constructor
  · have hmain : (handleError cfg env initialState e).1.calledFatalError =
        shouldApplyFatalHandlingLogic cfg env.listeners := by
      cases hs : shouldApplyFatalHandlingLogic cfg env.listeners <;>
        simp [handleError, initialState, hs]
    simpa [shouldApplyFatalHandlingLogic, processWouldExit] using hmain
  · intro ls
    rw [userProvidedListenersCount_eq]
    simp only [listenerIsIgnored_eq]

/-- C9: listeners named `domainUncaughtExceptionClear` (node's own domain
listener) are excluded from the user-provided listener count, so when
only such listeners are registered the count is zero and fatal handling
logic applies for every configuration — in particular node's domain
handling alone never suppresses termination when
`exitEvenIfOtherHandlersAreRegistered` is false. -/
theorem domainListener_excluded (cfg : Config) (l : TaggedListener)
    (ls ls2 : List TaggedListener)
    (hname : l.name = "domainUncaughtExceptionClear")
    (hall : ∀ l2 ∈ ls2, l2.name = "domainUncaughtExceptionClear") :
    userProvidedListenersCount (l :: ls) = userProvidedListenersCount ls ∧
    userProvidedListenersCount ls2 = 0 ∧
    shouldApplyFatalHandlingLogic cfg ls2 = true := by
  have hig : listenerIsIgnored l = true := by
    simp [listenerIsIgnored, hname]
  have hz : userProvidedListenersCount ls2 = 0 := by
    rw [userProvidedListenersCount_eq]
    have hfil : ls2.filter (fun l2 => !(listenerIsIgnored l2)) = [] := by
      rw [List.filter_eq_nil_iff]
      intro a ha
      simp [listenerIsIgnored, hall a ha]
    rw [hfil]
    rfl
  refine ⟨?_, hz, ?_⟩
  · rw [userProvidedListenersCount_eq, userProvidedListenersCount_eq,
      List.filter_cons]
    simp [hig]
  · simp [shouldApplyFatalHandlingLogic, processWouldExit, hz]

theorem domainListener_excluded_witness :
    userProvidedListenersCount
        ({ name := "domainUncaughtExceptionClear", tag := none
           _errorHandler := false } :: userListenerEnv.listeners) =
      userProvidedListenersCount userListenerEnv.listeners ∧
    userProvidedListenersCount domainOnlyEnv.listeners = 0 ∧
    shouldApplyFatalHandlingLogic deferConfig domainOnlyEnv.listeners = true :=
  domainListener_excluded deferConfig
    { name := "domainUncaughtExceptionClear", tag := none, _errorHandler := false }
    userListenerEnv.listeners domainOnlyEnv.listeners rfl (by decide)

end OnUncaughtException
